import Mathlib

/-!
Shallow embedding of the vehicle-intake register (`src/App.py`) and proofs
about its admission-limit, lifecycle and listing logic.

The Python program keeps a single `vehicles` table; all data operations are
single SQL statements.  We model the table as a list of `Vehicle` records
(in insertion order, as a SQL table with an auto-increment primary key) and
each data operation as a Lean function on a `Store`, translated
statement-by-statement from `App.py`.  Timestamps (`datetime.utcnow()`)
and `date.today()` are passed as explicit parameters.
-/

namespace ControlVehiculos

/-- Python's `str.strip()` on the character list of a string:
drop leading and trailing whitespace. -/
def stripChars (l : List Char) : List Char :=
  ((l.dropWhile Char.isWhitespace).reverse.dropWhile Char.isWhitespace).reverse

/-- Embedding of Python's `str.strip()` (`.strip()` calls in `App.py`). -/
def pyStrip (s : String) : String :=
  ⟨stripChars s.data⟩

/-- Calendar date, as Python's `datetime.date`. -/
structure PyDate where
  year : Nat
  month : Nat
  day : Nat
deriving Repr, DecidableEq

/-- Leap-year test of the proleptic Gregorian calendar
(as Python's `calendar.isleap`). -/
def isLeap (y : Nat) : Bool :=
  y % 4 = 0 && (y % 100 ≠ 0 || y % 400 = 0)

/-- Cumulative day counts before each month in a non-leap year. -/
def daysBeforeMonth (y m : Nat) : Nat :=
  (List.range (m - 1)).foldl
    (fun acc i => acc + [31, 28, 31, 30, 31, 30, 31, 31, 30, 31, 30, 31].getD i 0) 0
  + (if 2 < m && isLeap y then 1 else 0)

/-- Python's `date.toordinal`: days since 0001-01-01 (which is day 1). -/
def toOrdinal (d : PyDate) : Nat :=
  365 * (d.year - 1) + (d.year - 1) / 4 - (d.year - 1) / 100 + (d.year - 1) / 400
  + daysBeforeMonth d.year d.month + d.day

/-- Python's `date.weekday()`: Monday = 0 … Sunday = 6. -/
def pyWeekday (d : PyDate) : Nat :=
  (toOrdinal d - 1) % 7

/-- `is_weekday` from `App.py`: `d.weekday() < 5`. -/
def is_weekday (d : PyDate) : Bool :=
  pyWeekday d < 5

/-- Zero-padded two-digit decimal rendering. -/
def pad2 (n : Nat) : String :=
  if n < 10 then "0" ++ toString n else toString n

/-- Zero-padded four-digit decimal rendering. -/
def pad4 (n : Nat) : String :=
  if n < 10 then "000" ++ toString n
  else if n < 100 then "00" ++ toString n
  else if n < 1000 then "0" ++ toString n
  else toString n

/-- Python's `date.isoformat()`: `YYYY-MM-DD`. -/
def isoformat (d : PyDate) : String :=
  pad4 d.year ++ "-" ++ pad2 d.month ++ "-" ++ pad2 d.day

/-- One row of the `vehicles` table (`DDL_VEHICLES_*` in `App.py`).
`TEXT` columns that the schema allows to be `NULL` are `Option String`;
`done` is `Option Bool` because the `done` column is nullable
(the admin query explicitly handles `done IS NULL`). -/
structure Vehicle where
  id : Nat
  modelo : String
  bastidor : String
  color : String
  comercial : String
  hora_prevista : Option String
  matricula : String
  comentarios : String
  work_date : String
  tipo : String
  placa : Bool
  kit : Bool
  alfombrillas : Bool
  kit_flota : Bool
  done : Option Bool
  done_at : Option String
  done_by : Option String
  created_at : String
  created_by : String
  deleted_at : Option String
  deleted_by : Option String
  delete_reason : Option String
deriving Repr, DecidableEq

/-- The database: the `vehicles` table in insertion order plus the next
auto-increment id. -/
structure Store where
  records : List Vehicle
  nextId : Nat
deriving Repr, DecidableEq

/-- The `campos` dict assembled by the submit handlers in `App.py`. -/
structure Draft where
  modelo : String
  bastidor : String
  color : String
  comercial : String
  hora_prevista : String
  matricula : String
  comentarios : String
  placa : Bool
  kit : Bool
  alfombrillas : Bool
  kit_flota : Bool
deriving Repr, DecidableEq

/-- `MAX_PER_DAY = 15` from `App.py`: total limit per day
(Turismo + Industrial). -/
def MAX_PER_DAY : Nat := 15

/-- `get_active_count`: `SELECT COUNT(*) FROM vehicles WHERE deleted_at IS
NULL AND work_date = :d`. -/
def get_active_count (s : Store) (work_date_str : String) : Nat :=
  (s.records.filter
    (fun r => r.deleted_at == none && r.work_date == work_date_str)).length

/-- `get_count_by_type`: `SELECT COUNT(*) FROM vehicles WHERE deleted_at IS
NULL AND work_date = :d AND tipo = :t`. -/
def get_count_by_type (s : Store) (work_date_str tipo : String) : Nat :=
  (s.records.filter
    (fun r => r.deleted_at == none && r.work_date == work_date_str
      && r.tipo == tipo)).length

/-- `insert_vehicle` from `App.py`: the single `INSERT INTO vehicles`
statement.  Note that the `done` column is set by the SQL literal `FALSE`,
not from the draft's flags; `hora_prevista` becomes `NULL` for a falsy
(empty) string, and `tipo or "Turismo"` defaults an empty category. -/
def insert_vehicle (s : Store) (data : Draft) (user work_date_str tipo now : String) :
    Store :=
  let v : Vehicle :=
    { id := s.nextId
      modelo := pyStrip data.modelo
      bastidor := pyStrip data.bastidor
      color := pyStrip data.color
      comercial := pyStrip data.comercial
      hora_prevista := if data.hora_prevista = "" then none else some (pyStrip data.hora_prevista)
      matricula := pyStrip data.matricula
      comentarios := pyStrip data.comentarios
      work_date := work_date_str
      tipo := if tipo = "" then "Turismo" else tipo
      placa := data.placa
      kit := data.kit
      alfombrillas := data.alfombrillas
      kit_flota := data.kit_flota
      done := some false
      done_at := none
      done_by := none
      created_at := now
      created_by := user
      deleted_at := none
      deleted_by := none
      delete_reason := none }
  { records := s.records ++ [v], nextId := s.nextId + 1 }

/-- Effect of the `UPDATE vehicles SET deleted_at = …, deleted_by = …,
delete_reason = … WHERE id = :id AND deleted_at IS NULL` statement on one
row. -/
def apply_soft_delete (vid : Nat) (admin_user reason now : String) (r : Vehicle) :
    Vehicle :=
  if r.id = vid ∧ r.deleted_at = none then
    { r with deleted_at := some now, deleted_by := some admin_user,
             delete_reason := some (pyStrip reason) }
  else r

/-- `soft_delete_vehicle` from `App.py`. -/
def soft_delete_vehicle (s : Store) (vid : Nat) (admin_user reason now : String) :
    Store :=
  { s with records := s.records.map (apply_soft_delete vid admin_user reason now) }

/-- Effect on one row of the admin-save `UPDATE vehicles SET placa = …,
kit = …, alfombrillas = …, kit_flota = …, done = :done, done_at = CASE WHEN
:done THEN :dt ELSE done_at END, done_by = CASE WHEN :done THEN :by ELSE
done_by END WHERE id = :id AND deleted_at IS NULL`, where `:done` is
`done_new = placa_new and kit_new and alf_new and kit_flota_new`. -/
def apply_flag_update (vid : Nat) (p k a kf : Bool) (who when : String) (r : Vehicle) :
    Vehicle :=
  if r.id = vid ∧ r.deleted_at = none then
    { r with
      placa := p
      kit := k
      alfombrillas := a
      kit_flota := kf
      done := some (p && k && a && kf)
      done_at := if p && k && a && kf then some when else r.done_at
      done_by := if p && k && a && kf then some who else r.done_by }
  else r

/-- The admin "Guardar cambios" update for one changed row of `App.py`. -/
def update_vehicle_flags (s : Store) (vid : Nat) (p k a kf : Bool) (who when : String) :
    Store :=
  { s with records := s.records.map (apply_flag_update vid p k a kf who when) }

/-- Strict lexicographic order on character lists: the comparison SQL uses
for `TEXT` columns (ISO date strings compare chronologically this way). -/
def charListLt : List Char → List Char → Bool
  | [], [] => false
  | [], _ :: _ => true
  | _ :: _, [] => false
  | a :: as, b :: bs => if a < b then true else if a = b then charListLt as bs else false

/-- SQL `<` on `TEXT` values. -/
def strLtB (a b : String) : Bool := charListLt a.data b.data

/-- SQL `<=` on `TEXT` values. -/
def strLeB (a b : String) : Bool := strLtB a b || a == b

/-- The `ORDER BY id DESC` comparison used by `get_active_df` and
`get_all_df`. -/
def byIdDesc (a b : Vehicle) : Prop := b.id ≤ a.id

instance : DecidableRel byIdDesc := fun a b => Nat.decLe b.id a.id

instance : IsTotal Vehicle byIdDesc :=
  ⟨fun a b => (Nat.le_total b.id a.id).imp id id⟩

instance : IsTrans Vehicle byIdDesc :=
  ⟨fun _ _ _ hab hbc => Nat.le_trans hbc hab⟩

/-- The `ORDER BY work_date DESC, id DESC` comparison used by
`get_active_all_df`. -/
def byDateIdDesc (a b : Vehicle) : Prop :=
  strLtB b.work_date a.work_date = true
  ∨ (b.work_date = a.work_date ∧ b.id ≤ a.id)

instance : DecidableRel byDateIdDesc := fun _ _ => instDecidableOr

/-- Truthiness of the optional `tipo` argument (`if tipo:` in Python):
the filter applies only for a non-`None`, non-empty string. -/
def matches_tipo (tipo : Option String) (r : Vehicle) : Bool :=
  match tipo with
  | none => true
  | some t => if t = "" then true else r.tipo == t

/-- `get_active_df` from `App.py`: `SELECT … FROM vehicles WHERE deleted_at
IS NULL AND work_date = %s [AND tipo = %s] ORDER BY id DESC`. -/
def get_active_df (s : Store) (work_date_str : String) (tipo : Option String) :
    List Vehicle :=
  List.insertionSort byIdDesc
    (s.records.filter
      (fun r => r.deleted_at == none && r.work_date == work_date_str
        && matches_tipo tipo r))

/-- `get_all_df` from `App.py`: `SELECT … FROM vehicles ORDER BY id DESC`
(no `WHERE` clause: soft-deleted rows included). -/
def get_all_df (s : Store) : List Vehicle :=
  List.insertionSort byIdDesc s.records

/-- The optional range / tipo conditions of `get_active_all_df`; a `None`
or empty-string argument adds no condition (Python truthiness of
`if date_from:` etc.), and the tipo condition applies only when the value
is `"Turismo"` or `"Industrial"`. -/
def admin_filter (today : String) (date_from date_to tipo : Option String)
    (r : Vehicle) : Bool :=
  r.deleted_at == none
  && (r.done == none || r.done == some false)
  && strLeB r.work_date today
  && (match date_from with
      | none => true
      | some f => if f = "" then true else strLeB f r.work_date)
  && (match date_to with
      | none => true
      | some t => if t = "" then true else strLeB r.work_date t)
  && (match tipo with
      | none => true
      | some t =>
        if t = "" then true
        else if t = "Turismo" ∨ t = "Industrial" then r.tipo == t else true)

/-- `get_active_all_df` from `App.py`, the admin pending listing:
`SELECT … FROM vehicles WHERE deleted_at IS NULL AND (done IS NULL OR done
= 0) AND work_date <= %s [AND work_date >= %s] [AND work_date <= %s]
[AND tipo = %s] ORDER BY work_date DESC, id DESC`. -/
def get_active_all_df (s : Store) (today : String)
    (date_from date_to tipo : Option String) : List Vehicle :=
  List.insertionSort byDateIdDesc
    (s.records.filter (admin_filter today date_from date_to tipo))

/-- The admission error taxonomy of the submit handlers: a non-weekday
date disables the form, a bad `bastidor` or an empty required field shows
a validation message, and `get_active_count >= MAX_PER_DAY` shows the
daily-limit message; in every failure case nothing is inserted. -/
inductive AdmitError where
  | InvalidDate
  | ValidationError
  | DailyLimitExceeded
deriving Repr, DecidableEq

/-- The submit handler of the Turismo / Industrial forms in `App.py`
(the two are identical up to `tipo`): the weekday gate (`disabled` form on
non-weekdays), the 8-character `bastidor` check, the required-fields check
`all(campos[k].strip() for k in ["modelo", "bastidor", "color",
"comercial"])` (the handler puts the already-stripped `bastidor_str` into
`campos`, hence the double `pyStrip` on `bastidor`), the daily-total
re-check, then `insert_vehicle` on `campos`.  Returns the error (if any)
together with the resulting store; on any failure the store is
unchanged. -/
def submit_vehicle (s : Store) (dr : Draft) (user : String) (d : PyDate)
    (tipo now : String) : Option AdmitError × Store :=
  if is_weekday d = false then (some AdmitError.InvalidDate, s)
  else if (pyStrip dr.bastidor).length ≠ 8 then (some AdmitError.ValidationError, s)
  else if ¬ (pyStrip dr.modelo ≠ "" ∧ pyStrip (pyStrip dr.bastidor) ≠ ""
             ∧ pyStrip dr.color ≠ "" ∧ pyStrip dr.comercial ≠ "") then
    (some AdmitError.ValidationError, s)
  else if MAX_PER_DAY ≤ get_active_count s (isoformat d) then
    (some AdmitError.DailyLimitExceeded, s)
  else
    (none, insert_vehicle s { dr with bastidor := pyStrip dr.bastidor } user
      (isoformat d) tipo now)

/-- The data operations that can touch an existing row, for the
terminal-state claim. -/
inductive Op where
  | insert (dr : Draft) (user work_date_str tipo now : String)
  | updateFlags (vid : Nat) (p k a kf : Bool) (who when : String)
  | softDelete (vid : Nat) (user reason now : String)

/-- Interpretation of an operation on the store. -/
def apply_op (op : Op) (s : Store) : Store :=
  match op with
  | .insert dr user wd tipo now => insert_vehicle s dr user wd tipo now
  | .updateFlags vid p k a kf who when => update_vehicle_flags s vid p k a kf who when
  | .softDelete vid user reason now => soft_delete_vehicle s vid user reason now

/-- Row lookup by primary key. -/
def find_record (s : Store) (i : Nat) : Option Vehicle :=
  s.records.find? (fun r => r.id == i)

/-- Well-formedness the database guarantees via the primary key:
ids are pairwise distinct. -/
def wf (s : Store) : Prop :=
  (s.records.map (fun r => r.id)).Nodup

/-! ### Sample data for witnesses and counterexamples -/

/-- A valid draft: all required fields non-empty, 8-character chassis. -/
def sampleDraft : Draft :=
  ⟨"Corsa", "ABCD1234", "rojo", "Ana", "", "", "", false, false, false, false⟩

/-- A valid draft whose four checklist flags are all checked on the form. -/
def allFlagsDraft : Draft :=
  ⟨"Corsa", "ABCD1234", "rojo", "Ana", "", "", "", true, true, true, true⟩

/-- The store before any insertion. -/
def emptyStore : Store := ⟨[], 1⟩

/-- Monday 2024-06-03. -/
def mondayDate : PyDate := ⟨2024, 6, 3⟩

/-- Saturday 2024-06-08. -/
def saturdayDate : PyDate := ⟨2024, 6, 8⟩

/-- An active, not-done record. -/
def baseVehicle : Vehicle :=
  { id := 1, modelo := "Corsa", bastidor := "ABCD1234", color := "rojo",
    comercial := "Ana", hora_prevista := none, matricula := "", comentarios := "",
    work_date := "2024-06-03", tipo := "Turismo",
    placa := false, kit := false, alfombrillas := false, kit_flota := false,
    done := some false, done_at := none, done_by := none,
    created_at := "2024-06-03T08:00:00", created_by := "u",
    deleted_at := none, deleted_by := none, delete_reason := none }

/-- A soft-deleted record. -/
def deletedVehicle : Vehicle :=
  { baseVehicle with
    id := 2
    deleted_at := some "2024-06-03T09:00:00"
    deleted_by := some "admin"
    delete_reason := some "duplicado" }

/-- A completed record (all flags set, done). -/
def doneVehicle : Vehicle :=
  { baseVehicle with
    id := 3
    placa := true
    kit := true
    alfombrillas := true
    kit_flota := true
    done := some true
    done_at := some "2024-06-03T12:00:00"
    done_by := some "admin" }

/-- A small store with one active, one deleted and one done record. -/
def sampleStore : Store := ⟨[baseVehicle, deletedVehicle, doneVehicle], 4⟩

/-- Running `n` admission attempts in sequence, stopping at the first
failure. -/
def iter_submit (dr : Draft) (user : String) (d : PyDate) (tipo now : String) :
    Nat → Store → Option AdmitError × Store
  | 0, s => (none, s)
  | n + 1, s =>
    match submit_vehicle s dr user d tipo now with
    | (none, s') => iter_submit dr user d tipo now n s'
    | (some e, s') => (some e, s')

/-! ### Helper lemmas -/

lemma dropWhile_dropWhile_self (p : α → Bool) (l : List α) :
    (l.dropWhile p).dropWhile p = l.dropWhile p := by
  induction l with
  | nil => rfl
  | cons a t ih =>
    rw [List.dropWhile_cons]
    by_cases h : p a = true
    · rw [if_pos h]; exact ih
    · rw [if_neg h, List.dropWhile_cons, if_neg h]

lemma head?_dropWhile_false (p : α → Bool) (l : List α) {a : α}
    (h : (l.dropWhile p).head? = some a) : p a = false := by
  induction l with
  | nil => simp at h
  | cons b t ih =>
    rw [List.dropWhile_cons] at h
    by_cases hb : p b = true
    · rw [if_pos hb] at h; exact ih h
    · rw [if_neg hb] at h
      simp only [List.head?_cons, Option.some.injEq] at h
      rw [← h]
      exact Bool.not_eq_true _ ▸ hb

lemma getLast?_of_suffix {s x : List α} (h : List.IsSuffix s x) (hs : s ≠ []) :
    x.getLast? = s.getLast? := by
  obtain ⟨t, rfl⟩ := h
  exact List.getLast?_append_of_ne_nil t hs

lemma dropWhile_eq_self_of_head (p : α → Bool) (l : List α)
    (h : ∀ a, l.head? = some a → p a = false) : l.dropWhile p = l := by
  cases l with
  | nil => rfl
  | cons a t => rw [List.dropWhile_cons, h a rfl]; simp

lemma dropWhile_reverse_dropWhile (p : α → Bool) (y : List α)
    (hy : ∀ a, y.head? = some a → p a = false) :
    ((y.reverse.dropWhile p).reverse).dropWhile p = (y.reverse.dropWhile p).reverse := by
  apply dropWhile_eq_self_of_head
  intro a ha
  rw [List.head?_reverse] at ha
  have hne : y.reverse.dropWhile p ≠ [] := by
    intro h0
    rw [h0] at ha
    exact Option.noConfusion ha
  have hlast : y.reverse.getLast? = (y.reverse.dropWhile p).getLast? :=
    getLast?_of_suffix (List.dropWhile_suffix p) hne
  have hhead : y.head? = some a := by
    rw [← List.getLast?_reverse, hlast, ha]
  exact hy a hhead

lemma stripChars_idem (l : List Char) : stripChars (stripChars l) = stripChars l := by
  unfold stripChars
  have hd : ∀ a, (l.dropWhile Char.isWhitespace).head? = some a →
      Char.isWhitespace a = false := fun a h => head?_dropWhile_false _ l h
  rw [dropWhile_reverse_dropWhile Char.isWhitespace (l.dropWhile Char.isWhitespace) hd,
    List.reverse_reverse, dropWhile_dropWhile_self]

lemma pyStrip_idem (s : String) : pyStrip (pyStrip s) = pyStrip s :=
  congrArg String.mk (stripChars_idem s.data)

lemma ne_empty_of_length_pos {s : String} (h : 0 < s.length) : s ≠ "" := by
  intro he
  rw [he] at h
  exact Nat.lt_irrefl 0 h

lemma find?_append_left {l₁ l₂ : List α} {p : α → Bool} {a : α}
    (h : l₁.find? p = some a) : (l₁ ++ l₂).find? p = some a := by
  induction l₁ with
  | nil => simp at h
  | cons b t ih =>
    by_cases hb : p b = true
    · rw [List.find?_cons_of_pos t hb] at h
      rw [List.cons_append, List.find?_cons_of_pos _ hb]
      exact h
    · rw [List.find?_cons_of_neg t hb] at h
      rw [List.cons_append, List.find?_cons_of_neg _ hb]
      exact ih h

lemma find?_map_stable {f : Vehicle → Vehicle} {l : List Vehicle} {i : Nat} {r : Vehicle}
    (hid : ∀ x, (f x).id = x.id) (hfix : ∀ x, x.deleted_at ≠ none → f x = x)
    (h : l.find? (fun x => x.id == i) = some r) (hr : r.deleted_at ≠ none) :
    (l.map f).find? (fun x => x.id == i) = some r := by
  induction l with
  | nil => simp at h
  | cons a t ih =>
    by_cases ha : a.id = i
    · rw [@List.find?_cons_of_pos _ (fun x => x.id == i) a t (beq_iff_eq.mpr ha)] at h
      obtain rfl : a = r := Option.some.inj h
      rw [List.map_cons,
        @List.find?_cons_of_pos _ (fun x => x.id == i) (f a) (t.map f)
          (by rw [hfix a hr]; exact beq_iff_eq.mpr ha),
        hfix a hr]
    · have hb : ¬ ((fun x : Vehicle => x.id == i) a = true) := by
        simpa using ha
      rw [@List.find?_cons_of_neg _ (fun x => x.id == i) a t hb] at h
      have hb' : ¬ ((fun x : Vehicle => x.id == i) (f a) = true) := by
        simpa [hid a] using ha
      rw [List.map_cons, @List.find?_cons_of_neg _ (fun x => x.id == i) (f a) (t.map f) hb']
      exact ih h

lemma pairwise_and {R S : α → α → Prop} :
    ∀ {l : List α}, l.Pairwise R → l.Pairwise S → l.Pairwise (fun a b => R a b ∧ S a b)
  | [], _, _ => List.Pairwise.nil
  | _ :: _, List.Pairwise.cons hR hR', List.Pairwise.cons hS hS' =>
    List.Pairwise.cons (fun b hb => ⟨hR b hb, hS b hb⟩) (pairwise_and hR' hS')

lemma pairwise_strict_of_sorted_nodup {l : List Vehicle}
    (hs : l.Pairwise byIdDesc) (hn : (l.map (fun r => r.id)).Nodup) :
    l.Pairwise (fun a b => b.id < a.id) := by
  have hne : l.Pairwise (fun a b => a.id ≠ b.id) := List.pairwise_map.mp hn
  exact (pairwise_and hs hne).imp
    (fun h => Nat.lt_of_le_of_ne h.1 (Ne.symm h.2))

/-- For a weekday date and a draft passing the field validations, the
submit handler reduces to the daily-total check followed by the insert. -/
lemma submit_vehicle_valid (s : Store) (dr : Draft) (user : String) (d : PyDate)
    (tipo now : String)
    (hwd : is_weekday d = true)
    (hb : (pyStrip dr.bastidor).length = 8)
    (hm : pyStrip dr.modelo ≠ "") (hc : pyStrip dr.color ≠ "")
    (hcm : pyStrip dr.comercial ≠ "") :
    submit_vehicle s dr user d tipo now =
      if MAX_PER_DAY ≤ get_active_count s (isoformat d) then
        (some AdmitError.DailyLimitExceeded, s)
      else
        (none, insert_vehicle s { dr with bastidor := pyStrip dr.bastidor } user
          (isoformat d) tipo now) := by
  have h1 : ¬ (is_weekday d = false) := by rw [hwd]; simp
  have h2 : ¬ ((pyStrip dr.bastidor).length ≠ 8) := by rw [hb]; simp
  have hb' : pyStrip (pyStrip dr.bastidor) ≠ "" := by
    rw [pyStrip_idem]
    exact ne_empty_of_length_pos (by rw [hb]; omega)
  have h3 : ¬ ¬ (pyStrip dr.modelo ≠ "" ∧ pyStrip (pyStrip dr.bastidor) ≠ ""
      ∧ pyStrip dr.color ≠ "" ∧ pyStrip dr.comercial ≠ "") :=
    fun hn => hn ⟨hm, hb', hc, hcm⟩
  unfold submit_vehicle
  rw [if_neg h1, if_neg h2, if_neg h3]

/-! ### Claims -/

/-- C1: for a weekday work date and a valid record draft, an admission
attempt succeeds iff the number of active records for that date across
both categories is strictly less than `MAX_PER_DAY` (15); when the count
equals the limit the attempt is rejected with the daily-limit error and
the store is unchanged, and on success exactly one record is written. -/
theorem daily_limit_exclusive (s : Store) (dr : Draft) (user : String) (d : PyDate)
    (tipo now : String)
    (hwd : is_weekday d = true)
    (hb : (pyStrip dr.bastidor).length = 8)
    (hm : pyStrip dr.modelo ≠ "") (hc : pyStrip dr.color ≠ "")
    (hcm : pyStrip dr.comercial ≠ "") :
    ((submit_vehicle s dr user d tipo now).1 = none
       ↔ get_active_count s (isoformat d) < MAX_PER_DAY)
    ∧ (get_active_count s (isoformat d) = MAX_PER_DAY →
        submit_vehicle s dr user d tipo now = (some AdmitError.DailyLimitExceeded, s))
    ∧ ((submit_vehicle s dr user d tipo now).1 = none →
        (submit_vehicle s dr user d tipo now).2.records.length
          = s.records.length + 1) := by
  have he := submit_vehicle_valid s dr user d tipo now hwd hb hm hc hcm
  by_cases hcount : MAX_PER_DAY ≤ get_active_count s (isoformat d)
  · refine ⟨?_, ?_, ?_⟩
    · rw [he, if_pos hcount]
      simp only [Prod.fst]
      constructor
      · intro hcontra; exact absurd hcontra (by simp)
      · intro hlt; omega
    · intro _; rw [he, if_pos hcount]
    · intro hnone; rw [he, if_pos hcount] at hnone; simp at hnone
  · have hlt := Nat.lt_of_not_le hcount
    refine ⟨?_, ?_, ?_⟩
    · rw [he, if_neg hcount]; simp [hlt]
    · intro heq; omega
    · intro _
      rw [he, if_neg hcount]
      unfold insert_vehicle
      simp

/-- C1 witness: on Monday 2024-06-03 with a valid draft over the sample
store (2 active records), the theorem's hypotheses hold and its conclusion
is realized. -/
theorem daily_limit_exclusive_witness :
    is_weekday mondayDate = true
    ∧ (pyStrip sampleDraft.bastidor).length = 8
    ∧ (((submit_vehicle sampleStore sampleDraft "u" mondayDate "Turismo" "T").1 = none
         ↔ get_active_count sampleStore (isoformat mondayDate) < MAX_PER_DAY)
       ∧ (get_active_count sampleStore (isoformat mondayDate) = MAX_PER_DAY →
           submit_vehicle sampleStore sampleDraft "u" mondayDate "Turismo" "T"
             = (some AdmitError.DailyLimitExceeded, sampleStore))
       ∧ ((submit_vehicle sampleStore sampleDraft "u" mondayDate "Turismo" "T").1 = none →
           (submit_vehicle sampleStore sampleDraft "u" mondayDate "Turismo" "T").2.records.length
             = sampleStore.records.length + 1)) :=
  ⟨by decide, by decide,
   daily_limit_exclusive sampleStore sampleDraft "u" mondayDate "Turismo" "T"
     (by decide) (by decide) (by decide) (by decide) (by decide)⟩

/-- C2 counterexample: starting from the empty store on Monday 2024-06-03,
eleven consecutive Industrial admissions all succeed — in particular,
after 10 successful admissions to (2024-06-03, Industrial) the 11th
attempt succeeds instead of failing with a category-limit error (no
per-category limit exists in the code; `AdmitError` has no such case
because no code path produces one). -/
theorem category_limit_counterexample :
    (iter_submit sampleDraft "u" mondayDate "Industrial" "T" 11 emptyStore).1 = none
    ∧ get_count_by_type
        (iter_submit sampleDraft "u" mondayDate "Industrial" "T" 11 emptyStore).2
        "2024-06-03" "Industrial" = 11
    ∧ get_active_count
        (iter_submit sampleDraft "u" mondayDate "Industrial" "T" 10 emptyStore).2
        "2024-06-03" = 10 := by
  refine ⟨by decide, by decide, by decide⟩

/-- C2 amended: the code configures no per-category limit; an admission to
a weekday date with a valid draft succeeds whenever the daily total for
the date is below `MAX_PER_DAY`, no matter how many active records of the
same category (≥ any `N`) already exist on that date. -/
theorem category_count_never_blocks (s : Store) (dr : Draft) (user : String)
    (d : PyDate) (tipo now : String) (N : Nat)
    (hwd : is_weekday d = true)
    (hb : (pyStrip dr.bastidor).length = 8)
    (hm : pyStrip dr.modelo ≠ "") (hc : pyStrip dr.color ≠ "")
    (hcm : pyStrip dr.comercial ≠ "")
    (_hN : N ≤ get_count_by_type s (isoformat d) tipo)
    (htot : get_active_count s (isoformat d) < MAX_PER_DAY) :
    (submit_vehicle s dr user d tipo now).1 = none
    ∧ (submit_vehicle s dr user d tipo now).2.records.length
        = s.records.length + 1 := by
  have he := submit_vehicle_valid s dr user d tipo now hwd hb hm hc hcm
  have hcount : ¬ (MAX_PER_DAY ≤ get_active_count s (isoformat d)) := by omega
  rw [he, if_neg hcount]
  refine ⟨rfl, ?_⟩
  unfold insert_vehicle
  simp

/-- C2 amended witness: a store holding 10 active Industrial records on
2024-06-03 (total 10 < 15) admits an 11th Industrial record. -/
theorem category_count_never_blocks_witness :
    is_weekday mondayDate = true
    ∧ 10 ≤ get_count_by_type
        (iter_submit sampleDraft "u" mondayDate "Industrial" "T" 10 emptyStore).2
        (isoformat mondayDate) "Industrial"
    ∧ get_active_count
        (iter_submit sampleDraft "u" mondayDate "Industrial" "T" 10 emptyStore).2
        (isoformat mondayDate) < MAX_PER_DAY
    ∧ ((submit_vehicle
          (iter_submit sampleDraft "u" mondayDate "Industrial" "T" 10 emptyStore).2
          sampleDraft "u" mondayDate "Industrial" "T").1 = none
       ∧ (submit_vehicle
            (iter_submit sampleDraft "u" mondayDate "Industrial" "T" 10 emptyStore).2
            sampleDraft "u" mondayDate "Industrial" "T").2.records.length
           = (iter_submit sampleDraft "u" mondayDate "Industrial" "T" 10 emptyStore).2.records.length + 1) :=
  ⟨by decide, by decide, by decide,
   category_count_never_blocks
     (iter_submit sampleDraft "u" mondayDate "Industrial" "T" 10 emptyStore).2
     sampleDraft "u" mondayDate "Industrial" "T" 10
     (by decide) (by decide) (by decide) (by decide) (by decide) (by decide) (by decide)⟩

/-- C3: on a non-weekday date every admission attempt fails with
`InvalidDate` and leaves the store unchanged, whatever the current
counts. -/
theorem weekend_invalid_date (s : Store) (dr : Draft) (user : String) (d : PyDate)
    (tipo now : String) (h : is_weekday d = false) :
    submit_vehicle s dr user d tipo now = (some AdmitError.InvalidDate, s) := by
  unfold submit_vehicle
  rw [h]
  simp

/-- C3 witness: Saturday 2024-06-08 is rejected with `InvalidDate` on the
empty store. -/
theorem weekend_invalid_date_witness :
    is_weekday saturdayDate = false
    ∧ submit_vehicle emptyStore sampleDraft "u" saturdayDate "Turismo" "T"
        = (some AdmitError.InvalidDate, emptyStore) :=
  ⟨by decide,
   weekend_invalid_date emptyStore sampleDraft "u" saturdayDate "Turismo" "T" (by decide)⟩

/-- C6: `soft_delete_vehicle` is idempotent — a second call on the same
id (with any actor, reason and timestamp) is a no-op, so two calls leave
exactly the state fixed by the first call. -/
theorem soft_delete_idempotent (s : Store) (vid : Nat) (u₁ r₁ t₁ u₂ r₂ t₂ : String) :
    soft_delete_vehicle (soft_delete_vehicle s vid u₁ r₁ t₁) vid u₂ r₂ t₂
      = soft_delete_vehicle s vid u₁ r₁ t₁ := by
  unfold soft_delete_vehicle
  simp only [List.map_map, Store.mk.injEq, and_true]
  apply List.map_congr_left
  intro x _
  show apply_soft_delete vid u₂ r₂ t₂ (apply_soft_delete vid u₁ r₁ t₁ x)
      = apply_soft_delete vid u₁ r₁ t₁ x
  by_cases hc : x.id = vid ∧ x.deleted_at = none
  · have hinner : apply_soft_delete vid u₁ r₁ t₁ x
        = { x with
            deleted_at := some t₁
            deleted_by := some u₁
            delete_reason := some (pyStrip r₁) } := by
      rw [apply_soft_delete, if_pos hc]
    rw [hinner, apply_soft_delete, if_neg]
    intro hcontra
    exact Option.noConfusion hcontra.2
  · have hinner : apply_soft_delete vid u₁ r₁ t₁ x = x := by
      rw [apply_soft_delete, if_neg hc]
    rw [hinner, apply_soft_delete, if_neg hc]

/-- C8 counterexample: `soft_delete_vehicle` performs no reason
validation — calling it with an empty reason on an active record does not
fail and does modify the store, marking the record deleted with an empty
stored reason. -/
theorem soft_delete_empty_reason_counterexample :
    soft_delete_vehicle sampleStore 1 "admin" "" "2024-06-04T00:00:00" ≠ sampleStore
    ∧ (find_record (soft_delete_vehicle sampleStore 1 "admin" "" "2024-06-04T00:00:00") 1).map
        (fun r => (r.deleted_at, r.delete_reason))
        = some (some "2024-06-04T00:00:00", some "") := by
  refine ⟨by decide, by decide⟩

/-- C8 amended: `soft_delete_vehicle` accepts any reason, including the
empty or whitespace-only string: it unconditionally marks the matching
active record deleted, storing the trimmed (possibly empty) reason. -/
theorem soft_delete_ignores_reason_validity (r : Vehicle) (vid : Nat)
    (u reason now : String) (hid : r.id = vid) (hdel : r.deleted_at = none) :
    (apply_soft_delete vid u reason now r).deleted_at = some now
    ∧ (apply_soft_delete vid u reason now r).deleted_by = some u
    ∧ (apply_soft_delete vid u reason now r).delete_reason = some (pyStrip reason) := by
  unfold apply_soft_delete
  rw [if_pos ⟨hid, hdel⟩]
  exact ⟨rfl, rfl, rfl⟩

/-- C8 amended witness: deleting the active sample record with the empty
reason. -/
theorem soft_delete_ignores_reason_validity_witness :
    baseVehicle.id = 1 ∧ baseVehicle.deleted_at = none
    ∧ ((apply_soft_delete 1 "admin" "" "2024-06-04T00:00:00" baseVehicle).deleted_at
          = some "2024-06-04T00:00:00"
       ∧ (apply_soft_delete 1 "admin" "" "2024-06-04T00:00:00" baseVehicle).deleted_by
          = some "admin"
       ∧ (apply_soft_delete 1 "admin" "" "2024-06-04T00:00:00" baseVehicle).delete_reason
          = some (pyStrip "")) :=
  ⟨by decide, by decide,
   soft_delete_ignores_reason_validity baseVehicle 1 "admin" "" "2024-06-04T00:00:00"
     (by decide) (by decide)⟩

/-- C4 counterexample: a draft with all four checklist flags checked is
admitted on a weekday, and the created record stores the four flags as
`true` but `done = false` — at record creation `done` is NOT the AND of
the stored checklist flags. -/
theorem insert_done_counterexample :
    (submit_vehicle emptyStore allFlagsDraft "u" mondayDate "Turismo" "T").1 = none
    ∧ ((submit_vehicle emptyStore allFlagsDraft "u" mondayDate "Turismo" "T").2.records.getLast?).map
        (fun v => (v.placa && v.kit && v.alfombrillas && v.kit_flota, v.done))
        = some (true, some false) := by
  refine ⟨by decide, by decide⟩

/-- C4 amended: immediately after an admin flag update, the matching
active record's `done` equals the AND of its four stored checklist flags;
at record creation, `done` is written as `false` unconditionally,
regardless of the initial flag values. -/
theorem done_eq_and_flags_amended (s : Store) (vid : Nat) (p k a kf : Bool)
    (who when : String) (dr : Draft) (user wd tipo now : String) (r' : Vehicle)
    (h : r' ∈ (update_vehicle_flags s vid p k a kf who when).records)
    (hid : r'.id = vid) (hdel : r'.deleted_at = none) :
    r'.done = some (r'.placa && r'.kit && r'.alfombrillas && r'.kit_flota)
    ∧ ∃ v, (insert_vehicle s dr user wd tipo now).records.getLast? = some v
        ∧ v.done = some false := by
  constructor
  · unfold update_vehicle_flags at h
    obtain ⟨x, _, hfx⟩ := List.mem_map.mp h
    by_cases hc : x.id = vid ∧ x.deleted_at = none
    · rw [apply_flag_update, if_pos hc] at hfx
      rw [← hfx]
    · rw [apply_flag_update, if_neg hc] at hfx
      rw [← hfx] at hid hdel
      exact absurd ⟨hid, hdel⟩ hc
  · simp only [insert_vehicle]
    exact ⟨_, List.getLast?_concat _, rfl⟩

/-- C4 amended witness: updating the sample record with all flags true
yields `done = some true = AND of flags`, and any insertion writes
`done = some false`. -/
theorem done_eq_and_flags_amended_witness :
    (apply_flag_update 1 true true true true "admin" "TS" baseVehicle)
        ∈ (update_vehicle_flags sampleStore 1 true true true true "admin" "TS").records
    ∧ (apply_flag_update 1 true true true true "admin" "TS" baseVehicle).id = 1
    ∧ (apply_flag_update 1 true true true true "admin" "TS" baseVehicle).deleted_at = none
    ∧ ((apply_flag_update 1 true true true true "admin" "TS" baseVehicle).done
        = some ((apply_flag_update 1 true true true true "admin" "TS" baseVehicle).placa
            && (apply_flag_update 1 true true true true "admin" "TS" baseVehicle).kit
            && (apply_flag_update 1 true true true true "admin" "TS" baseVehicle).alfombrillas
            && (apply_flag_update 1 true true true true "admin" "TS" baseVehicle).kit_flota)
       ∧ ∃ v, (insert_vehicle sampleStore sampleDraft "u" "2024-06-03" "Turismo" "T").records.getLast?
            = some v ∧ v.done = some false) :=
  ⟨by decide, by decide, by decide,
   done_eq_and_flags_amended sampleStore 1 true true true true "admin" "TS"
     sampleDraft "u" "2024-06-03" "Turismo" "T"
     (apply_flag_update 1 true true true true "admin" "TS" baseVehicle)
     (by decide) (by decide) (by decide)⟩

/-- C5: on the row the admin update targets (matching id, active), a
transition of `done` from false to true stamps `done_at`/`done_by` with
the given timestamp and actor; a transition from true to false leaves
`done_at`/`done_by` at their previous values; and no field outside the
four flags and `done`/`done_at`/`done_by` is modified. -/
theorem done_audit_fields (r : Vehicle) (vid : Nat) (p k a kf : Bool)
    (who when : String) (hid : r.id = vid) (hdel : r.deleted_at = none) :
    ((r.done = some false → (p && k && a && kf) = true →
        (apply_flag_update vid p k a kf who when r).done = some true
        ∧ (apply_flag_update vid p k a kf who when r).done_at = some when
        ∧ (apply_flag_update vid p k a kf who when r).done_by = some who)
     ∧ (r.done = some true → (p && k && a && kf) = false →
        (apply_flag_update vid p k a kf who when r).done = some false
        ∧ (apply_flag_update vid p k a kf who when r).done_at = r.done_at
        ∧ (apply_flag_update vid p k a kf who when r).done_by = r.done_by)
     ∧ ((apply_flag_update vid p k a kf who when r).id = r.id
        ∧ (apply_flag_update vid p k a kf who when r).modelo = r.modelo
        ∧ (apply_flag_update vid p k a kf who when r).bastidor = r.bastidor
        ∧ (apply_flag_update vid p k a kf who when r).color = r.color
        ∧ (apply_flag_update vid p k a kf who when r).comercial = r.comercial
        ∧ (apply_flag_update vid p k a kf who when r).hora_prevista = r.hora_prevista
        ∧ (apply_flag_update vid p k a kf who when r).matricula = r.matricula
        ∧ (apply_flag_update vid p k a kf who when r).comentarios = r.comentarios
        ∧ (apply_flag_update vid p k a kf who when r).work_date = r.work_date
        ∧ (apply_flag_update vid p k a kf who when r).tipo = r.tipo
        ∧ (apply_flag_update vid p k a kf who when r).created_at = r.created_at
        ∧ (apply_flag_update vid p k a kf who when r).created_by = r.created_by
        ∧ (apply_flag_update vid p k a kf who when r).deleted_at = r.deleted_at
        ∧ (apply_flag_update vid p k a kf who when r).deleted_by = r.deleted_by
        ∧ (apply_flag_update vid p k a kf who when r).delete_reason = r.delete_reason)) := by
  unfold apply_flag_update
  rw [if_pos ⟨hid, hdel⟩]
  refine ⟨fun _ hand => ?_, fun _ hand => ?_, ?_⟩
  · rw [hand]
    exact ⟨rfl, by simp, by simp⟩
  · rw [hand]
    exact ⟨rfl, by simp, by simp⟩
  · exact ⟨rfl, rfl, rfl, rfl, rfl, rfl, rfl, rfl, rfl, rfl, rfl, rfl, rfl, rfl, rfl⟩

/-- C5 witness: flipping all four flags on for the pending sample record
(done false → true) stamps the audit fields. -/
theorem done_audit_fields_witness :
    baseVehicle.id = 1 ∧ baseVehicle.deleted_at = none
    ∧ (baseVehicle.done = some false → (true && true && true && true) = true →
        (apply_flag_update 1 true true true true "admin" "TS" baseVehicle).done = some true
        ∧ (apply_flag_update 1 true true true true "admin" "TS" baseVehicle).done_at = some "TS"
        ∧ (apply_flag_update 1 true true true true "admin" "TS" baseVehicle).done_by = some "admin") :=
  ⟨by decide, by decide,
   (done_audit_fields baseVehicle 1 true true true true "admin" "TS"
     (by decide) (by decide)).1⟩

/-- C7: the Deleted state is terminal — a record whose `deleted_at` is
non-null is returned unchanged by id lookup after any further operation
(insert, admin flag update, or another soft delete). -/
theorem deleted_is_terminal (op : Op) (s : Store) (i : Nat) (r : Vehicle)
    (hf : find_record s i = some r) (hd : r.deleted_at ≠ none) :
    find_record (apply_op op s) i = some r := by
  cases op with
  | insert dr user wd tipo now =>
    unfold find_record at hf ⊢
    unfold apply_op insert_vehicle
    exact find?_append_left hf
  | updateFlags vid p k a kf who when =>
    unfold find_record at hf ⊢
    unfold apply_op update_vehicle_flags
    refine find?_map_stable ?_ ?_ hf hd
    · intro x
      unfold apply_flag_update
      split <;> rfl
    · intro x hx
      rw [apply_flag_update, if_neg (fun hcc => hx hcc.2)]
  | softDelete vid user reason now =>
    unfold find_record at hf ⊢
    unfold apply_op soft_delete_vehicle
    refine find?_map_stable ?_ ?_ hf hd
    · intro x
      unfold apply_soft_delete
      split <;> rfl
    · intro x hx
      rw [apply_soft_delete, if_neg (fun hcc => hx hcc.2)]

/-- C7 witness: the deleted sample record is untouched by a further soft
delete targeting its id. -/
theorem deleted_is_terminal_witness :
    find_record sampleStore 2 = some deletedVehicle
    ∧ deletedVehicle.deleted_at ≠ none
    ∧ find_record (apply_op (Op.softDelete 2 "admin" "otra" "2024-06-05T00:00:00") sampleStore) 2
        = some deletedVehicle :=
  ⟨by decide, by decide,
   deleted_is_terminal (Op.softDelete 2 "admin" "otra" "2024-06-05T00:00:00")
     sampleStore 2 deletedVehicle (by decide) (by decide)⟩

/-- C9: `get_active_df` returns exactly the stored records of the given
date (and category filter) with null `deleted_at`, in strictly decreasing
id order, while `get_all_df` returns every stored record — deleted ones
included — in strictly decreasing id order. -/
theorem listing_contract (s : Store) (wd : String) (tipo : Option String)
    (hwf : wf s) :
    (∀ r, r ∈ get_active_df s wd tipo ↔
        r ∈ s.records ∧ r.deleted_at = none ∧ r.work_date = wd
          ∧ matches_tipo tipo r = true)
    ∧ (get_active_df s wd tipo).Pairwise (fun a b => b.id < a.id)
    ∧ (∀ r, r ∈ get_all_df s ↔ r ∈ s.records)
    ∧ (get_all_df s).Pairwise (fun a b => b.id < a.id) := by
  unfold wf at hwf
  refine ⟨?_, ?_, ?_, ?_⟩
  · intro r
    unfold get_active_df
    rw [List.mem_insertionSort, List.mem_filter]
    simp only [Bool.and_eq_true, beq_iff_eq]
    tauto
  · unfold get_active_df
    apply pairwise_strict_of_sorted_nodup (List.sorted_insertionSort byIdDesc _)
    have hsub : List.Sublist
        ((s.records.filter
          (fun r => r.deleted_at == none && r.work_date == wd && matches_tipo tipo r)).map
            (fun r => r.id))
        (s.records.map (fun r => r.id)) :=
      List.Sublist.map _ (List.filter_sublist _)
    exact (((List.perm_insertionSort byIdDesc _).map (fun r => r.id)).nodup_iff).mpr
      (List.Nodup.sublist hsub hwf)
  · intro r
    unfold get_all_df
    exact List.mem_insertionSort byIdDesc
  · unfold get_all_df
    apply pairwise_strict_of_sorted_nodup (List.sorted_insertionSort byIdDesc _)
    exact (((List.perm_insertionSort byIdDesc _).map (fun r => r.id)).nodup_iff).mpr hwf

/-- C9 witness: on the sample store (distinct ids) the active listing for
2024-06-03 excludes the deleted record, keeps the active ones, and is
strictly id-descending. -/
theorem listing_contract_witness :
    wf sampleStore
    ∧ ((baseVehicle ∈ get_active_df sampleStore "2024-06-03" none ↔
          baseVehicle ∈ sampleStore.records ∧ baseVehicle.deleted_at = none
            ∧ baseVehicle.work_date = "2024-06-03"
            ∧ matches_tipo none baseVehicle = true)
       ∧ (get_active_df sampleStore "2024-06-03" none).Pairwise (fun a b => b.id < a.id)) :=
  ⟨by unfold wf; decide,
   ⟨(listing_contract sampleStore "2024-06-03" none (by unfold wf; decide)).1 baseVehicle,
    (listing_contract sampleStore "2024-06-03" none (by unfold wf; decide)).2.1⟩⟩

/-- C10: every record in the admin pending listing is active
(`deleted_at` null), not done (`done` null or false) and dated no later
than today, whatever range/category filters are supplied; in particular a
done record never appears. -/
theorem admin_pending_listing_props (s : Store) (today : String)
    (date_from date_to tipo : Option String) (r : Vehicle)
    (h : r ∈ get_active_all_df s today date_from date_to tipo) :
    r.deleted_at = none ∧ (r.done = none ∨ r.done = some false)
    ∧ strLeB r.work_date today = true ∧ r.done ≠ some true := by
  unfold get_active_all_df at h
  rw [List.mem_insertionSort, List.mem_filter] at h
  have hq := h.2
  unfold admin_filter at hq
  simp only [Bool.and_eq_true, Bool.or_eq_true, beq_iff_eq] at hq
  obtain ⟨⟨⟨⟨⟨hdel, hdone⟩, hle⟩, -⟩, -⟩, -⟩ := hq
  refine ⟨hdel, hdone, hle, ?_⟩
  rcases hdone with h1 | h1 <;> simp [h1]

/-- C10 witness: with today = 2024-06-10 and no filters, the pending
sample record is listed and satisfies all the listed properties. -/
theorem admin_pending_listing_props_witness :
    baseVehicle ∈ get_active_all_df sampleStore "2024-06-10" none none none
    ∧ (baseVehicle.deleted_at = none
       ∧ (baseVehicle.done = none ∨ baseVehicle.done = some false)
       ∧ strLeB baseVehicle.work_date "2024-06-10" = true
       ∧ baseVehicle.done ≠ some true) :=
  ⟨by decide,
   admin_pending_listing_props sampleStore "2024-06-10" none none none baseVehicle
     (by decide)⟩

end ControlVehiculos
